import Mathlib

/-! Verification of the PROCAR parsing and effective-mass subsystem of vasppy
(`vasppy/procar.py`).

The definitions below are a shallow embedding of the source.  Regex text
extraction is abstracted away: the extracted record tables (k-point table,
band table, occupancy table, and the flat projection matrix produced by
`projections_parser`) are taken as inputs, and everything from the
negative-occupancy policy onwards is modelled faithfully, including the NumPy
`reshape` / `swapaxes` / slice / `concatenate` calls, which are given honest
row-major (C-order) index semantics on a small n-dimensional-array model. -/

deriving instance DecidableEq for Except

/-- Row-major flat offset of a multi-index `idx` in an array of shape `shape`:
the indexing arithmetic of NumPy C-order arrays. -/
def flattenIdx : List Nat → List Nat → Nat
  | _ :: ds, i :: is => i * ds.prod + flattenIdx ds is
  | _, _ => 0

/-- Inverse of `flattenIdx`: the row-major multi-index of flat offset `i`
in an array of shape `shape`. -/
def unflattenIdx : List Nat → Nat → List Nat
  | [], _ => []
  | _ :: ds, i => i / ds.prod :: unflattenIdx ds (i % ds.prod)

/-- All multi-indices of an array of shape `shape`, in row-major order. -/
def allIndices (shape : List Nat) : List (List Nat) :=
  (List.range shape.prod).map (unflattenIdx shape)

/-- A NumPy-style n-dimensional array of rationals: a shape together with the
row-major flat data buffer. -/
structure NDArray where
  shape : List Nat
  data : List ℚ
deriving DecidableEq

/-- Element lookup at a multi-index (out-of-range offsets read as `0`;
all uses below are in range). -/
def NDArray.get (a : NDArray) (idx : List Nat) : ℚ :=
  a.data.getD (flattenIdx a.shape idx) 0

/-- `np.reshape`: succeeds exactly when the total element count is preserved,
in which case the flat buffer is reinterpreted under the new shape; on a
mismatch NumPy raises `ValueError`, modelled as `none`. -/
def NDArray.reshape (a : NDArray) (s : List Nat) : Option NDArray :=
  if a.shape.prod = s.prod then some ⟨s, a.data⟩ else none

/-- `np.swapaxes`: exchange axes `i` and `j`, re-laying the data out in
row-major order of the new shape. -/
def NDArray.swapaxes (a : NDArray) (i j : Nat) : NDArray :=
  ⟨(a.shape.set i (a.shape.getD j 0)).set j (a.shape.getD i 0),
    (allIndices ((a.shape.set i (a.shape.getD j 0)).set j (a.shape.getD i 0))).map fun idx =>
      a.get ((idx.set i (idx.getD j 0)).set j (idx.getD i 0))⟩

/-- The basic slice `a[:, …, k:, …, :]` taking indices `≥ k` along axis
`axis` (used for the source's `[:,:,:,:,1:]`). -/
def NDArray.sliceFrom (a : NDArray) (axis k : Nat) : NDArray :=
  ⟨a.shape.set axis (a.shape.getD axis 0 - k),
    (allIndices (a.shape.set axis (a.shape.getD axis 0 - k))).map fun idx =>
      a.get (idx.set axis (idx.getD axis 0 + k))⟩

/-- Shape compatibility for `np.concatenate`: equal rank, axis in range, and
equal extents on every axis other than the concatenation axis. -/
def NDArray.concatOK (a b : NDArray) (axis : Nat) : Bool :=
  a.shape.length == b.shape.length && decide (axis < a.shape.length) &&
    (List.range a.shape.length).all fun i =>
      i == axis || a.shape.getD i 0 == b.shape.getD i 0

/-- `np.concatenate((a, b), axis)`: join along `axis`; incompatible shapes
raise `ValueError`, modelled as `none`. -/
def NDArray.concatenate (a b : NDArray) (axis : Nat) : Option NDArray :=
  if a.concatOK b axis then
    some ⟨a.shape.set axis (a.shape.getD axis 0 + b.shape.getD axis 0),
      (allIndices (a.shape.set axis (a.shape.getD axis 0 + b.shape.getD axis 0))).map fun idx =>
        if idx.getD axis 0 < a.shape.getD axis 0 then a.get idx
        else b.get (idx.set axis (idx.getD axis 0 - a.shape.getD axis 0))⟩
  else none

/-- The three mutually exclusive calculation-type flags of
`Procar.calculation` (a `dict` of booleans in the source). -/
structure Calculation where
  non_spin_polarised : Bool
  non_collinear : Bool
  spin_polarised : Bool
deriving DecidableEq

/-- Which compatibility check of `Procar.__add__` rejected the pair. -/
inductive AddField
  | spin_channels
  | number_of_ions
  | number_of_bands
  | number_of_projections
  | k_point_blocks
  | calculation
deriving DecidableEq

/-- The error outcomes of the embedded code paths.  `assertionError` is the
bare `AssertionError` re-raised by `parse_projections` (it carries no
message); `indexError` is NumPy's `IndexError` from indexing a 1-D (empty)
record array where two axes are expected — `occupancy[:,1]` on an empty
occupancy table, or `projection_data.shape[1]` on an empty projection array;
the three mismatch constructors are the `sanity_check` assertion messages,
which report both conflicting counts; `reshapeMismatch` is NumPy's
`ValueError` for an impossible reshape (carrying the actual element count and
the requested shape); `negativeOccupancies` is the `ValueError` of the
`raise` policy; `notCollinear` is the `ValueError` of
`least_squares_effective_mass`; `incompatible` is the `ValueError` of
`Procar.__add__`; `concatMismatch` is NumPy's `ValueError` from
`np.concatenate`. -/
inductive PError
  | assertionError
  | indexError
  | kPointMismatch (expected read : ℚ)
  | bandMismatch (expected read : ℚ)
  | occupancyMismatch (expected read : ℚ)
  | reshapeMismatch (size : Nat) (target : List Nat)
  | negativeOccupancies
  | notCollinear
  | incompatible (f : AddField)
  | concatMismatch
deriving DecidableEq

/-- The `negative_occupancies` keyword argument of `Procar.read_from_file`
(only the four valid values; an invalid string raises before any parsing). -/
inductive Policy
  | warn
  | raise
  | ignore
  | zero
deriving DecidableEq

/-- The spin-mode information assigned by `Procar.parse_projections`:
`spin_channels`, `k_point_blocks` and the `calculation` flags. -/
structure ModeInfo where
  spin_channels : Nat
  k_point_blocks : Nat
  calculation : Calculation
deriving DecidableEq

/-- The state of a parsed `Procar` object (the attributes assigned by
`read_from_file` that survive after `read_in` is cleared). -/
structure Procar where
  spin_channels : Nat
  number_of_k_points : Nat
  number_of_ions : Nat
  number_of_bands : Nat
  data : NDArray
  bands : List (ℚ × ℚ)
  occupancy : List (ℚ × ℚ)
  number_of_projections : Nat
  k_point_blocks : Nat
  calculation : Calculation
  k_points : List (ℚ × ℚ × ℚ)
deriving DecidableEq

/-- The freshly-constructed object of `Procar.__init__` (Python's `None`
fields rendered as zero/empty; only used as an inert placeholder). -/
def Procar.init : Procar :=
  { spin_channels := 1
    number_of_k_points := 0
    number_of_ions := 0
    number_of_bands := 0
    data := ⟨[0], []⟩
    bands := []
    occupancy := []
    number_of_projections := 0
    k_point_blocks := 0
    calculation := ⟨false, false, false⟩
    k_points := [] }

/-- The spin-mode hypothesis chain of `Procar.parse_projections`
(lines 163–180): `try: assert B*K == R …` then, in the bare `except:`
handler, the `R == B*K*4` and `R == B*K*2` hypotheses, else the original
`AssertionError` is re-raised. -/
def infer_mode (R B K : Nat) : Except PError ModeInfo :=
  if B * K = R then Except.ok ⟨1, 1, ⟨true, false, false⟩⟩
  else if B * K * 4 = R then Except.ok ⟨4, 1, ⟨false, true, false⟩⟩
  else if B * K * 2 = R then Except.ok ⟨2, 2, ⟨false, false, true⟩⟩
  else Except.error PError.assertionError

/-- `Procar.parse_projections` on the already-extracted flat projection
matrix `pd`: infer the spin mode from `len(projection_data)` (the first
shape entry), then set
`number_of_projections = int(shape[1] / (ions + 1))`; reading `shape[1]` of
a 1-D empty array raises `IndexError`. -/
def parse_projections (pd : NDArray) (B K ions : Nat) : Except PError (ModeInfo × Nat) :=
  match infer_mode (pd.shape.headD 0) B K with
  | Except.error e => Except.error e
  | Except.ok m =>
    match pd.shape.get? 1 with
    | none => Except.error PError.indexError
    | some c => Except.ok (m, c / (ions + 1))

/-- The negative-occupancy policy block of `Procar.read_from_file`
(lines 261–267).  Returns the (possibly clamped) occupancy table and whether
a warning was emitted.  On an empty table the guard
`np.any(self.occupancy[:,1] < 0)` itself raises `IndexError`, because
`np.array([])` is 1-D and `[:,1]` demands a second axis.  The `zero` policy
performs `occupancy[occupancy < 0] = 0.0`, i.e. every negative entry of the
whole two-column array is set to zero. -/
def handle_negative_occupancies (policy : Policy) (occupancy : List (ℚ × ℚ)) :
    Except PError (List (ℚ × ℚ) × Bool) :=
  if occupancy.isEmpty then Except.error PError.indexError
  else if occupancy.any fun r => decide (r.2 < 0) then
    match policy with
    | Policy.warn => Except.ok (occupancy, true)
    | Policy.raise => Except.error PError.negativeOccupancies
    | Policy.ignore => Except.ok (occupancy, false)
    | Policy.zero =>
        Except.ok (occupancy.map fun r =>
          (if r.1 < 0 then 0 else r.1, if r.2 < 0 then 0 else r.2), false)
  else Except.ok (occupancy, false)

/-- `Procar.sanity_check`: the three sequential assertions comparing the
header counts with the parsed record counts, each reporting both conflicting
values.  Python's true division is modelled by rational division. -/
def sanity_check (K B blocks n_kpts n_bands n_occ : Nat) : Except PError Unit :=
  if (K : ℚ) = (n_kpts : ℚ) / (blocks : ℚ) then
    if (B : ℚ) = (n_bands : ℚ) / (K : ℚ) / (blocks : ℚ) then
      if (B : ℚ) = (n_occ : ℚ) / (K : ℚ) / (blocks : ℚ) then Except.ok ()
      else Except.error (PError.occupancyMismatch (B : ℚ) ((n_occ : ℚ) / (K : ℚ) / (blocks : ℚ)))
    else Except.error (PError.bandMismatch (B : ℚ) ((n_bands : ℚ) / (K : ℚ) / (blocks : ℚ)))
  else Except.error (PError.kPointMismatch (K : ℚ) ((n_kpts : ℚ) / (blocks : ℚ)))

/-- `Procar.read_from_file` after text extraction: `K`, `B`, `ions` are the
three header integers, `k_points`, `bands`, `occupancy` and `pd` are the
outputs of `parse_k_points` / `parse_bands` / `parse_occupancy` /
`projections_parser`.  The steps run in source order: negative-occupancy
policy, `parse_projections`, `sanity_check`, then the mode-dependent
reshape; for a spin-polarised file the raw `(spin, K, B, ions+1, P)` block
is sliced with `[:,:,:,:,1:]` and the spin axis is moved to position 2 by
two `swapaxes` calls, otherwise the `(K, B, spin, ions+1, P)` block is only
sliced. -/
def read_from_file (K B ions : Nat) (k_points : List (ℚ × ℚ × ℚ))
    (bands occupancy : List (ℚ × ℚ)) (pd : NDArray) (policy : Policy) :
    Except PError Procar :=
  match handle_negative_occupancies policy occupancy with
  | Except.error e => Except.error e
  | Except.ok (occ, _warned) =>
    match parse_projections pd B K ions with
    | Except.error e => Except.error e
    | Except.ok (m, P) =>
      match sanity_check K B m.k_point_blocks k_points.length bands.length occ.length with
      | Except.error e => Except.error e
      | Except.ok _ =>
        if m.calculation.spin_polarised then
          match pd.reshape [m.spin_channels, K, B, ions + 1, P] with
          | none => Except.error (PError.reshapeMismatch pd.shape.prod
              [m.spin_channels, K, B, ions + 1, P])
          | some r => Except.ok
              { spin_channels := m.spin_channels
                number_of_k_points := K
                number_of_ions := ions
                number_of_bands := B
                data := ((r.sliceFrom 4 1).swapaxes 0 1).swapaxes 1 2
                bands := bands
                occupancy := occ
                number_of_projections := P
                k_point_blocks := m.k_point_blocks
                calculation := m.calculation
                k_points := k_points }
        else
          match pd.reshape [K, B, m.spin_channels, ions + 1, P] with
          | none => Except.error (PError.reshapeMismatch pd.shape.prod
              [K, B, m.spin_channels, ions + 1, P])
          | some r => Except.ok
              { spin_channels := m.spin_channels
                number_of_k_points := K
                number_of_ions := ions
                number_of_bands := B
                data := r.sliceFrom 4 1
                bands := bands
                occupancy := occ
                number_of_projections := P
                k_point_blocks := m.k_point_blocks
                calculation := m.calculation
                k_points := k_points }

/-- `Procar.__add__`: six sequential compatibility checks, then a
`deepcopy` of the left operand whose `data` is replaced by
`np.concatenate((self.data, other.data), axis=1)` when
`calculation['spin_polarised']` and `np.concatenate((self.data, other.data))`
(axis 0) otherwise, whose `number_of_k_points` is the sum, and whose `bands`
and `occupancy` are concatenated along axis 0.  All other attributes —
`k_points` in particular — are the deep copies of the left operand's. -/
def Procar.add (a b : Procar) : Except PError Procar :=
  if a.spin_channels ≠ b.spin_channels then
    Except.error (PError.incompatible AddField.spin_channels)
  else if a.number_of_ions ≠ b.number_of_ions then
    Except.error (PError.incompatible AddField.number_of_ions)
  else if a.number_of_bands ≠ b.number_of_bands then
    Except.error (PError.incompatible AddField.number_of_bands)
  else if a.number_of_projections ≠ b.number_of_projections then
    Except.error (PError.incompatible AddField.number_of_projections)
  else if a.k_point_blocks ≠ b.k_point_blocks then
    Except.error (PError.incompatible AddField.k_point_blocks)
  else if a.calculation ≠ b.calculation then
    Except.error (PError.incompatible AddField.calculation)
  else
    match (if a.calculation.spin_polarised then a.data.concatenate b.data 1
           else a.data.concatenate b.data 0) with
    | none => Except.error PError.concatMismatch
    | some d => Except.ok
        { a with
          data := d
          number_of_k_points := a.number_of_k_points + b.number_of_k_points
          bands := a.bands ++ b.bands
          occupancy := a.occupancy ++ b.occupancy }

/-- Modelled from the spec: the eV-to-Hartree energy-unit conversion constant
imported from the `units` module, which is not under `src/`; the spec only
calls it "a unit/length-scale conversion constant", and no claim depends on
its numeric value. -/
def ev_to_hartree : ℝ := 0.0367493

/-- Componentwise difference of two Cartesian 3-vectors. -/
def sub3 (u v : ℝ × ℝ × ℝ) : ℝ × ℝ × ℝ :=
  (u.1 - v.1, u.2.1 - v.2.1, u.2.2 - v.2.2)

/-- Euclidean dot product of two Cartesian 3-vectors. -/
def dot3 (u v : ℝ × ℝ × ℝ) : ℝ :=
  u.1 * v.1 + u.2.1 * v.2.1 + u.2.2 * v.2.2

/-- `np.cross` of two Cartesian 3-vectors. -/
def cross3 (u v : ℝ × ℝ × ℝ) : ℝ × ℝ × ℝ :=
  (u.2.1 * v.2.2 - u.2.2 * v.2.1, u.2.2 * v.1 - u.1 * v.2.2, u.1 * v.2.1 - u.2.1 * v.1)

/-- The zero 3-vector, the out-of-range default for `List.getD` (the source
indexes `points[0]` and `points[1]` only on lists of length ≥ 2). -/
def origin3 : ℝ × ℝ × ℝ := (0, 0, 0)

/-- `area_of_a_triangle_in_cartesian_space`:
`0.5 * np.linalg.norm(np.cross(b - a, c - a))`, with
`np.linalg.norm x = Real.sqrt (dot3 x x)`. -/
noncomputable def area_of_a_triangle_in_cartesian_space (a b c : ℝ × ℝ × ℝ) : ℝ :=
  0.5 * Real.sqrt (dot3 (cross3 (sub3 b a) (sub3 c a)) (cross3 (sub3 b a) (sub3 c a)))

/-- `points_are_in_a_straight_line`: `False` as soon as one triangle formed
by the first two points and a later point has area above the tolerance,
`True` otherwise. -/
def points_are_in_a_straight_line (points : List (ℝ × ℝ × ℝ)) (tolerance : ℝ) : Prop :=
  ∀ c ∈ points.drop 2,
    ¬ (area_of_a_triangle_in_cartesian_space (points.getD 0 origin3) (points.getD 1 origin3) c
        > tolerance)

/-- `two_point_effective_mass`: after the two shape assertions,
`dk = k[1] - k[0]`, `mod_dk = sqrt(dk·dk)`,
`delta_e = (e[1] - e[0]) * ev_to_hartree * 2`, returning
`mod_dk * mod_dk / delta_e`. -/
noncomputable def two_point_effective_mass (cartesian_k_points : List (ℝ × ℝ × ℝ))
    (eigenvalues : List ℝ) : Except PError ℝ :=
  if cartesian_k_points.length = 2 ∧ eigenvalues.length = 2 then
    Except.ok
      (Real.sqrt (dot3 (sub3 (cartesian_k_points.getD 1 origin3) (cartesian_k_points.getD 0 origin3))
          (sub3 (cartesian_k_points.getD 1 origin3) (cartesian_k_points.getD 0 origin3))) *
        Real.sqrt (dot3 (sub3 (cartesian_k_points.getD 1 origin3) (cartesian_k_points.getD 0 origin3))
          (sub3 (cartesian_k_points.getD 1 origin3) (cartesian_k_points.getD 0 origin3))) /
        ((eigenvalues.getD 1 0 - eigenvalues.getD 0 0) * ev_to_hartree * 2))
  else Except.error PError.assertionError

/-- Sum of the `k`-th powers of a list of samples. -/
def sumPow {α : Type} [Field α] (xs : List α) (k : Nat) : α :=
  (xs.map fun x => x ^ k).sum

/-- Sum of `x ^ k * y` over paired samples. -/
def sumPowMul {α : Type} [Field α] (xs ys : List α) (k : Nat) : α :=
  ((xs.zip ys).map fun p => p.1 ^ k * p.2).sum

/-- Determinant of the 3×3 moment (normal-equation) matrix of a degree-2
least-squares fit to the samples `xs`. -/
def quadMomentDet {α : Type} [Field α] (xs : List α) : α :=
  sumPow xs 4 * (sumPow xs 2 * sumPow xs 0 - sumPow xs 1 * sumPow xs 1) -
    sumPow xs 3 * (sumPow xs 3 * sumPow xs 0 - sumPow xs 2 * sumPow xs 1) +
    sumPow xs 2 * (sumPow xs 3 * sumPow xs 1 - sumPow xs 2 * sumPow xs 2)

/-- Modelled from the spec: `np.polyfit(xs, ys, 2)[0]`, the leading
coefficient of the degree-2 least-squares polynomial fit — a NumPy library
routine, not code of this repository.  It is rendered as the Cramer
solution of the normal equations; `polyfitQuadLead_exact_quadratic` below
checks this model against exactly quadratic data. -/
def polyfitQuadLead {α : Type} [Field α] (xs ys : List α) : α :=
  (sumPowMul xs ys 2 * (sumPow xs 2 * sumPow xs 0 - sumPow xs 1 * sumPow xs 1) -
      sumPow xs 3 * (sumPowMul xs ys 1 * sumPow xs 0 - sumPowMul xs ys 0 * sumPow xs 1) +
      sumPow xs 2 * (sumPowMul xs ys 1 * sumPow xs 1 - sumPowMul xs ys 0 * sumPow xs 2)) /
    quadMomentDet xs

section
open scoped Classical

/-- `least_squares_effective_mass`: raise `ValueError` unless the k-points
are collinear (default tolerance `1e-7`), else fit the eigenvalues against
`mod_dk = np.linalg.norm(k - k[0])` with a degree-2 least-squares polynomial
and return `1.0 / (polyfit(mod_dk, eigenvalues, 2)[0] * ev_to_hartree * 2.0)`. -/
noncomputable def least_squares_effective_mass (cartesian_k_points : List (ℝ × ℝ × ℝ))
    (eigenvalues : List ℝ) : Except PError ℝ :=
  if points_are_in_a_straight_line cartesian_k_points (1e-7) then
    Except.ok (1 /
      (polyfitQuadLead
          (cartesian_k_points.map fun k =>
            Real.sqrt (dot3 (sub3 k (cartesian_k_points.getD 0 origin3))
              (sub3 k (cartesian_k_points.getD 0 origin3))))
          eigenvalues *
        ev_to_hartree * 2))
  else Except.error PError.notCollinear

end

/-- Zipping a list with its own image under `f` pairs every element with its
image. -/
theorem zip_map_self {α β : Type} (f : α → β) (l : List α) :
    ∀ p ∈ l.zip (l.map f), p.2 = f p.1 := by
  induction l with
  | nil => simp
  | cons x t ih =>
      intro p hp
      simp only [List.map_cons, List.zip_cons_cons, List.mem_cons] at hp
      rcases hp with rfl | hp
      · rfl
      · exact ih p hp

/-- Rational-division rendering of an integer-count equality: for a nonzero
divisor, `a = b / c` over `ℚ` is the same as `b = a * c` over `ℕ`. -/
theorem nat_eq_div_iff (a b c : Nat) (hc : c ≠ 0) :
    ((a : ℚ) = (b : ℚ) / (c : ℚ)) ↔ b = a * c := by
  have hc' : (c : ℚ) ≠ 0 := Nat.cast_ne_zero.mpr hc
  rw [eq_div_iff hc']
  constructor
  · intro h
    exact_mod_cast h.symm
  · intro h
    exact_mod_cast h.symm

/-- C2 (confirmed): mode inference tries the three record-count hypotheses in
fixed priority order — `R = B*K` sets `spin_channels = 1`,
`k_point_blocks = 1` and flags `non_spin_polarised`; otherwise `R = B*K*4`
sets `spin_channels = 4`, `k_point_blocks = 1` and flags `non_collinear`;
otherwise `R = B*K*2` sets `spin_channels = 2`, `k_point_blocks = 2` and
flags `spin_polarised`; otherwise the `AssertionError` is re-raised.  The
first matching rule wins. -/
theorem mode_inference_priority (R B K : Nat) :
    (R = B * K → infer_mode R B K = Except.ok ⟨1, 1, ⟨true, false, false⟩⟩) ∧
    (R ≠ B * K → R = B * K * 4 →
      infer_mode R B K = Except.ok ⟨4, 1, ⟨false, true, false⟩⟩) ∧
    (R ≠ B * K → R ≠ B * K * 4 → R = B * K * 2 →
      infer_mode R B K = Except.ok ⟨2, 2, ⟨false, false, true⟩⟩) ∧
    (R ≠ B * K → R ≠ B * K * 4 → R ≠ B * K * 2 →
      infer_mode R B K = Except.error PError.assertionError) := by
  unfold infer_mode
  refine ⟨?_, ?_, ?_, ?_⟩
  · intro h
    rw [if_pos h.symm]
  · intro h1 h2
    rw [if_neg fun hh => h1 hh.symm, if_pos h2.symm]
  · intro h1 h2 h3
    rw [if_neg fun hh => h1 hh.symm, if_neg fun hh => h2 hh.symm, if_pos h3.symm]
  · intro h1 h2 h3
    rw [if_neg fun hh => h1 hh.symm, if_neg fun hh => h2 hh.symm,
      if_neg fun hh => h3 hh.symm]

/-- Witness for C2: each of the four rules fires at a concrete record count
(header `B = 2`, `K = 3`). -/
theorem mode_inference_priority_witness :
    infer_mode 6 2 3 = Except.ok ⟨1, 1, ⟨true, false, false⟩⟩ ∧
    infer_mode 24 2 3 = Except.ok ⟨4, 1, ⟨false, true, false⟩⟩ ∧
    infer_mode 12 2 3 = Except.ok ⟨2, 2, ⟨false, false, true⟩⟩ ∧
    infer_mode 7 2 3 = Except.error PError.assertionError :=
  ⟨(mode_inference_priority 6 2 3).1 rfl,
   (mode_inference_priority 24 2 3).2.1 (by decide) rfl,
   (mode_inference_priority 12 2 3).2.2.1 (by decide) (by decide) rfl,
   (mode_inference_priority 7 2 3).2.2.2 (by decide) (by decide) (by decide)⟩

/-- C8 counterexample: with `B*K = 0` and zero projection rows, mode
inference does not fail before the rules are applied — the first rule
matches and the parse is classified as non-spin-polarised with
`spin_channels = 1`. -/
theorem degenerate_mode_counterexample :
    infer_mode 0 0 0 = Except.ok ⟨1, 1, ⟨true, false, false⟩⟩ := rfl

/-- C8 (corrected): there is no `B*K = 0` pre-check.  With zero projection
rows and `B*K = 0` the first mode-inference rule matches and classifies the
parse as non-spin-polarised; `parse_projections` then fails anyway — with an
`IndexError` while reading `shape[1]` of the empty projection array — and
with the bare re-raised `AssertionError` when `B*K ≠ 0`, so no such parse
completes, but the failure comes after the rules, not before them. -/
theorem degenerate_mode_behaviour (B K ions : Nat) :
    (B * K = 0 → infer_mode 0 B K = Except.ok ⟨1, 1, ⟨true, false, false⟩⟩) ∧
    parse_projections ⟨[0], []⟩ B K ions =
      Except.error (if B * K = 0 then PError.indexError else PError.assertionError) := by
  constructor
  · intro h
    unfold infer_mode
    rw [if_pos h]
  · unfold parse_projections infer_mode
    by_cases h : B * K = 0
    · simp [h]
    · have h4 : ¬ B * K * 4 = 0 := by
        intro hh
        exact h (by omega)
      have h2 : ¬ B * K * 2 = 0 := by
        intro hh
        exact h (by omega)
      simp [h, h4, h2]

/-- Witness for C8's amended statement at `B = K = ions = 0`. -/
theorem degenerate_mode_behaviour_witness :
    infer_mode 0 0 0 = Except.ok ⟨1, 1, ⟨true, false, false⟩⟩ ∧
    parse_projections ⟨[0], []⟩ 0 0 0 = Except.error PError.indexError := by
  have h := degenerate_mode_behaviour 0 0 0
  exact ⟨h.1 rfl, by simpa using h.2⟩

/-- C5 (confirmed): on an occupancy table containing at least one negative
occupancy value, the `zero` policy replaces exactly the negative entries with
`0.0` and leaves every other entry unchanged, the `raise` policy aborts with
an exception, the `ignore` policy returns the table unchanged without
raising, and the default `warn` policy emits a warning and alters nothing. -/
theorem negative_occupancy_policy_spec (occupancy : List (ℚ × ℚ))
    (h : ∃ r ∈ occupancy, r.2 < 0) :
    handle_negative_occupancies Policy.zero occupancy =
      Except.ok (occupancy.map fun r =>
        (if r.1 < 0 then 0 else r.1, if r.2 < 0 then 0 else r.2), false) ∧
    (∀ p ∈ occupancy.zip (occupancy.map fun r =>
        (if r.1 < 0 then 0 else r.1, if r.2 < 0 then 0 else r.2)),
      (p.1.2 < 0 → p.2.2 = 0) ∧ (0 ≤ p.1.2 → p.2.2 = p.1.2) ∧
      (p.1.1 < 0 → p.2.1 = 0) ∧ (0 ≤ p.1.1 → p.2.1 = p.1.1)) ∧
    handle_negative_occupancies Policy.raise occupancy =
      Except.error PError.negativeOccupancies ∧
    handle_negative_occupancies Policy.ignore occupancy = Except.ok (occupancy, false) ∧
    handle_negative_occupancies Policy.warn occupancy = Except.ok (occupancy, true) := by
  have hany : (occupancy.any fun r => decide (r.2 < 0)) = true := by
    obtain ⟨r, hr, hneg⟩ := h
    exact List.any_eq_true.mpr ⟨r, hr, by simpa using hneg⟩
  have hne : ¬ occupancy.isEmpty = true := by
    obtain ⟨r, hr, _⟩ := h
    cases occupancy with
    | nil => cases hr
    | cons x t => simp
  refine ⟨?_, ?_, ?_, ?_, ?_⟩
  · unfold handle_negative_occupancies
    rw [if_neg hne, if_pos hany]
  · intro p hp
    have hp2 := zip_map_self
      (fun r : ℚ × ℚ => ((if r.1 < 0 then 0 else r.1 : ℚ), (if r.2 < 0 then 0 else r.2 : ℚ)))
      occupancy p hp
    refine ⟨?_, ?_, ?_, ?_⟩
    · intro hneg
      rw [hp2]
      simp [hneg]
    · intro hpos
      rw [hp2]
      simp [not_lt.mpr hpos]
    · intro hneg
      rw [hp2]
      simp [hneg]
    · intro hpos
      rw [hp2]
      simp [not_lt.mpr hpos]
  · unfold handle_negative_occupancies
    rw [if_neg hne, if_pos hany]
  · unfold handle_negative_occupancies
    rw [if_neg hne, if_pos hany]
  · unfold handle_negative_occupancies
    rw [if_neg hne, if_pos hany]

/-- Witness for C5 at the concrete table `[(1, -1), (2, 3)]`. -/
theorem negative_occupancy_policy_spec_witness :
    handle_negative_occupancies Policy.zero [((1 : ℚ), (-1 : ℚ)), (2, 3)] =
      Except.ok ([((1 : ℚ), (0 : ℚ)), (2, 3)], false) ∧
    handle_negative_occupancies Policy.raise [((1 : ℚ), (-1 : ℚ)), (2, 3)] =
      Except.error PError.negativeOccupancies ∧
    handle_negative_occupancies Policy.ignore [((1 : ℚ), (-1 : ℚ)), (2, 3)] =
      Except.ok ([((1 : ℚ), (-1 : ℚ)), (2, 3)], false) ∧
    handle_negative_occupancies Policy.warn [((1 : ℚ), (-1 : ℚ)), (2, 3)] =
      Except.ok ([((1 : ℚ), (-1 : ℚ)), (2, 3)], true) := by
  have h := negative_occupancy_policy_spec [((1 : ℚ), (-1 : ℚ)), (2, 3)] (by decide)
  refine ⟨?_, h.2.2.1, h.2.2.2.1, h.2.2.2.2⟩
  rw [h.1]
  decide

/-- C6 (confirmed): `sanity_check` passes exactly when the parsed k-point
count equals `K * k_point_blocks`, and the parsed band and occupancy record
counts both equal `B * K * k_point_blocks`; each of the three possible
mismatches — parsed k-points over blocks vs header `K`, parsed bands over
`K * blocks` vs header `B`, parsed occupancies over `K * blocks` vs header
`B` — is fatal and reports both conflicting counts. -/
theorem sanity_check_spec (K B blocks n_kpts n_bands n_occ : Nat)
    (hK : 1 ≤ K) (hbl : 1 ≤ blocks) :
    (sanity_check K B blocks n_kpts n_bands n_occ = Except.ok () ↔
      (n_kpts = K * blocks ∧ n_bands = B * (K * blocks) ∧ n_occ = B * (K * blocks))) ∧
    (¬ (K : ℚ) = (n_kpts : ℚ) / (blocks : ℚ) →
      sanity_check K B blocks n_kpts n_bands n_occ =
        Except.error (PError.kPointMismatch (K : ℚ) ((n_kpts : ℚ) / (blocks : ℚ)))) ∧
    ((K : ℚ) = (n_kpts : ℚ) / (blocks : ℚ) →
      ¬ (B : ℚ) = (n_bands : ℚ) / (K : ℚ) / (blocks : ℚ) →
      sanity_check K B blocks n_kpts n_bands n_occ =
        Except.error (PError.bandMismatch (B : ℚ) ((n_bands : ℚ) / (K : ℚ) / (blocks : ℚ)))) ∧
    ((K : ℚ) = (n_kpts : ℚ) / (blocks : ℚ) →
      (B : ℚ) = (n_bands : ℚ) / (K : ℚ) / (blocks : ℚ) →
      ¬ (B : ℚ) = (n_occ : ℚ) / (K : ℚ) / (blocks : ℚ) →
      sanity_check K B blocks n_kpts n_bands n_occ =
        Except.error (PError.occupancyMismatch (B : ℚ) ((n_occ : ℚ) / (K : ℚ) / (blocks : ℚ)))) := by
  have hKbl : K * blocks ≠ 0 := by
    intro hh
    rcases Nat.mul_eq_zero.mp hh with hh | hh <;> omega
  have hdd : ∀ n : Nat, (n : ℚ) / (K : ℚ) / (blocks : ℚ) = (n : ℚ) / ((K * blocks : Nat) : ℚ) := by
    intro n
    rw [div_div]
    push_cast
    ring_nf
  have hkiff : ((K : ℚ) = (n_kpts : ℚ) / (blocks : ℚ)) ↔ n_kpts = K * blocks :=
    nat_eq_div_iff K n_kpts blocks (by omega)
  have hbiff : ((B : ℚ) = (n_bands : ℚ) / (K : ℚ) / (blocks : ℚ)) ↔ n_bands = B * (K * blocks) := by
    rw [hdd]
    exact nat_eq_div_iff B n_bands (K * blocks) hKbl
  have hoiff : ((B : ℚ) = (n_occ : ℚ) / (K : ℚ) / (blocks : ℚ)) ↔ n_occ = B * (K * blocks) := by
    rw [hdd]
    exact nat_eq_div_iff B n_occ (K * blocks) hKbl
  refine ⟨?_, ?_, ?_, ?_⟩
  · unfold sanity_check
    split_ifs with h1 h2 h3
    · simp [hkiff.mp h1, hbiff.mp h2, hoiff.mp h3]
    · constructor
      · intro hh
        exact hh.elim
      · intro hh
        exact absurd (hoiff.mpr hh.2.2) h3
    · constructor
      · intro hh
        exact hh.elim
      · intro hh
        exact absurd (hbiff.mpr hh.2.1) h2
    · constructor
      · intro hh
        exact hh.elim
      · intro hh
        exact absurd (hkiff.mpr hh.1) h1
  · intro h1
    unfold sanity_check
    rw [if_neg h1]
  · intro h1 h2
    unfold sanity_check
    rw [if_pos h1, if_neg h2]
  · intro h1 h2 h3
    unfold sanity_check
    rw [if_pos h1, if_pos h2, if_neg h3]

/-- Witness for C6: a consistent file (`K = 2`, `B = 3`, one block) passes,
and one with a missing k-point fails reporting `2` (header) against `3`
(parsed). -/
theorem sanity_check_spec_witness :
    sanity_check 2 3 1 2 6 6 = Except.ok () ∧
    sanity_check 2 3 1 3 6 6 =
      Except.error (PError.kPointMismatch ((2 : Nat) : ℚ) (((3 : Nat) : ℚ) / ((1 : Nat) : ℚ))) := by
  constructor
  · exact (sanity_check_spec 2 3 1 2 6 6 (by decide) (by decide)).1.mpr (by decide)
  · refine (sanity_check_spec 2 3 1 3 6 6 (by decide) (by decide)).2.1 ?_
    intro hh
    norm_num at hh

/-- A successful NumPy reshape yields exactly the requested shape. -/
theorem reshape_shape {a : NDArray} {s : List Nat} {b : NDArray}
    (h : a.reshape s = some b) : b.shape = s := by
  unfold NDArray.reshape at h
  split at h
  · cases h
    rfl
  · cases h

/-- Shape effect of `sliceFrom`. -/
theorem sliceFrom_shape (a : NDArray) (axis k : Nat) :
    (a.sliceFrom axis k).shape = a.shape.set axis (a.shape.getD axis 0 - k) := rfl

/-- Shape effect of `swapaxes`. -/
theorem swapaxes_shape (a : NDArray) (i j : Nat) :
    (a.swapaxes i j).shape =
      (a.shape.set i (a.shape.getD j 0)).set j (a.shape.getD i 0) := rfl

/-- C1 (corrected): for every successfully parsed file the public projection
array has shape `(number_of_k_points, number_of_bands, spin_channels,
number_of_ions + 1, number_of_projections - 1)`, identically for all three
calculation modes.  The last axis is one "less" than the stored
`number_of_projections` because the `[:,:,:,:,1:]` slice drops the leading
ion-index column, while `number_of_projections` counts all raw per-ion
columns. -/
theorem procar_data_shape (K B ions : Nat) (k_points : List (ℚ × ℚ × ℚ))
    (bands occupancy : List (ℚ × ℚ)) (pd : NDArray) (policy : Policy) (p : Procar)
    (h : read_from_file K B ions k_points bands occupancy pd policy = Except.ok p) :
    p.data.shape = [p.number_of_k_points, p.number_of_bands, p.spin_channels,
      p.number_of_ions + 1, p.number_of_projections - 1] := by
  unfold read_from_file at h
  split at h
  · exact Except.noConfusion h
  · split at h
    · exact Except.noConfusion h
    · split at h
      · exact Except.noConfusion h
      · split at h
        · split at h
          · exact Except.noConfusion h
          · rename_i r heq
            cases h
            dsimp only
            rw [swapaxes_shape, swapaxes_shape, sliceFrom_shape, reshape_shape heq]
            rfl
        · split at h
          · exact Except.noConfusion h
          · rename_i r heq
            cases h
            dsimp only
            rw [sliceFrom_shape, reshape_shape heq]
            rfl

/-- The parsed object for the concrete one-k-point, one-band, zero-ion file
whose single projection block is the row `[5, 7]` (so two raw projection
columns, `number_of_projections = 2`). -/
def c1proc : Procar :=
  { spin_channels := 1
    number_of_k_points := 1
    number_of_ions := 0
    number_of_bands := 1
    data := ⟨[1, 1, 1, 1, 1], [7]⟩
    bands := [(1, 3)]
    occupancy := [(1, 1)]
    number_of_projections := 2
    k_point_blocks := 1
    calculation := ⟨true, false, false⟩
    k_points := [(0, 0, 0)] }

/-- Evaluation of the full parse pipeline on the concrete file behind
`c1proc`. -/
theorem c1parse_eval :
    read_from_file 1 1 0 [(0, 0, 0)] [(1, 3)] [(1, 1)] ⟨[1, 2], [5, 7]⟩ Policy.warn =
      Except.ok c1proc := by
  have e1 : handle_negative_occupancies Policy.warn [((1 : ℚ), (1 : ℚ))] =
      Except.ok ([((1 : ℚ), (1 : ℚ))], false) := by decide
  have e2 : parse_projections ⟨[1, 2], [5, 7]⟩ 1 1 0 =
      Except.ok (⟨1, 1, ⟨true, false, false⟩⟩, 2) := by decide
  have e3 : sanity_check 1 1 1 1 1 1 = Except.ok () := by
    unfold sanity_check
    norm_num
  have e4 : NDArray.reshape ⟨[1, 2], [5, 7]⟩ [1, 1, 1, 1, 2] =
      some ⟨[1, 1, 1, 1, 2], [5, 7]⟩ := by decide
  simp only [read_from_file, e1, e2, e3, e4, List.length_cons, List.length_nil]
  decide

/-- C1 counterexample: a successfully parsed file whose public data array
has last-axis extent `1` while the stored `number_of_projections` is `2`,
so the shape is not
`(k-points, bands, spin, ions+1, number_of_projections)` as claimed. -/
theorem procar_data_shape_counterexample :
    read_from_file 1 1 0 [(0, 0, 0)] [(1, 3)] [(1, 1)] ⟨[1, 2], [5, 7]⟩ Policy.warn =
      Except.ok c1proc ∧
    c1proc.number_of_projections = 2 ∧
    c1proc.data.shape = [1, 1, 1, 1, 1] ∧
    c1proc.data.shape ≠ [c1proc.number_of_k_points, c1proc.number_of_bands,
      c1proc.spin_channels, c1proc.number_of_ions + 1, c1proc.number_of_projections] :=
  ⟨c1parse_eval, by decide, by decide, by decide⟩

/-- Witness for C1's amended statement: the theorem applied to the concrete
parse behind `c1proc`. -/
theorem procar_data_shape_witness :
    read_from_file 1 1 0 [(0, 0, 0)] [(1, 3)] [(1, 1)] ⟨[1, 2], [5, 7]⟩ Policy.warn =
      Except.ok c1proc ∧
    c1proc.data.shape = [c1proc.number_of_k_points, c1proc.number_of_bands,
      c1proc.spin_channels, c1proc.number_of_ions + 1, c1proc.number_of_projections - 1] :=
  ⟨c1parse_eval,
   procar_data_shape 1 1 0 [(0, 0, 0)] [(1, 3)] [(1, 1)] ⟨[1, 2], [5, 7]⟩ Policy.warn c1proc
     c1parse_eval⟩

/-- C7 counterexample: a parse whose flat projection row count (5) is
divisible by none of `B*K = 2`, `B*K*4 = 8`, `B*K*2 = 4` fails with the bare
re-raised `AssertionError` — an error carrying no expected/actual counts —
not with a count-reporting shape-mismatch error. -/
theorem unmatched_row_count_counterexample :
    read_from_file 1 2 0 [(0, 0, 0)] [(1, 2), (2, 3)] [(1, 1), (2, 1)]
      ⟨[5, 1], [1, 2, 3, 4, 5]⟩ Policy.ignore =
      Except.error PError.assertionError := by decide

/-- C7 (corrected): when the flat projection row count matches none of the
three record-count hypotheses, parsing aborts inside `parse_projections` —
before any reshape of the projection data is attempted — but with the bare
re-raised `AssertionError`, which reports no expected or actual counts;
there is no pre-reshape divisibility check producing a count-reporting
shape-mismatch error. -/
theorem unmatched_row_count_aborts (K B ions : Nat) (k_points : List (ℚ × ℚ × ℚ))
    (bands occupancy : List (ℚ × ℚ)) (pd : NDArray) (policy : Policy)
    (occ : List (ℚ × ℚ)) (w : Bool)
    (hocc : handle_negative_occupancies policy occupancy = Except.ok (occ, w))
    (h1 : pd.shape.headD 0 ≠ B * K)
    (h2 : pd.shape.headD 0 ≠ B * K * 4)
    (h3 : pd.shape.headD 0 ≠ B * K * 2) :
    read_from_file K B ions k_points bands occupancy pd policy =
      Except.error PError.assertionError := by
  have hm : infer_mode (pd.shape.headD 0) B K = Except.error PError.assertionError := by
    unfold infer_mode
    rw [if_neg fun hh => h1 hh.symm, if_neg fun hh => h2 hh.symm,
      if_neg fun hh => h3 hh.symm]
  have hp : parse_projections pd B K ions = Except.error PError.assertionError := by
    unfold parse_projections
    rw [hm]
  unfold read_from_file
  simp only [hocc, hp]

/-- Witness for C7's amended statement at a row count of 3 with
`B = K = 1`. -/
theorem unmatched_row_count_aborts_witness :
    read_from_file 1 1 0 [(0, 0, 0)] [(1, 2)] [(1, 1)] ⟨[3, 1], [1, 2, 3]⟩ Policy.warn =
      Except.error PError.assertionError :=
  unmatched_row_count_aborts 1 1 0 [(0, 0, 0)] [(1, 2)] [(1, 1)] ⟨[3, 1], [1, 2, 3]⟩
    Policy.warn [(1, 1)] false (by decide) (by decide) (by decide) (by decide)

/-- The parsed object of a minimal spin-polarised file: header `K = 1`,
`B = 1`, zero ions, four projection rows laid out as the flat matrix
`[[1, 2], [3, 4]]` is not possible — the matrix here has two rows, matching
`B*K*2`, so the file is classified spin-polarised. -/
def c3proc : Procar :=
  { spin_channels := 2
    number_of_k_points := 1
    number_of_ions := 0
    number_of_bands := 1
    data := ⟨[1, 1, 2, 1, 1], [2, 4]⟩
    bands := [(1, 2), (1, 3)]
    occupancy := [(1, 1), (1, 1)]
    number_of_projections := 2
    k_point_blocks := 2
    calculation := ⟨false, false, true⟩
    k_points := [(0, 0, 0), (0, 0, 0)] }

/-- Evaluation of the full parse pipeline on the spin-polarised file behind
`c3proc`. -/
theorem c3parse_eval :
    read_from_file 1 1 0 [(0, 0, 0), (0, 0, 0)] [(1, 2), (1, 3)] [(1, 1), (1, 1)]
      ⟨[2, 2], [1, 2, 3, 4]⟩ Policy.warn = Except.ok c3proc := by
  have e1 : handle_negative_occupancies Policy.warn [((1 : ℚ), (1 : ℚ)), (1, 1)] =
      Except.ok ([((1 : ℚ), (1 : ℚ)), (1, 1)], false) := by decide
  have e2 : parse_projections ⟨[2, 2], [1, 2, 3, 4]⟩ 1 1 0 =
      Except.ok (⟨2, 2, ⟨false, false, true⟩⟩, 2) := by decide
  have e3 : sanity_check 1 1 2 2 2 2 = Except.ok () := by
    unfold sanity_check
    norm_num
  have e4 : NDArray.reshape ⟨[2, 2], [1, 2, 3, 4]⟩ [2, 1, 1, 1, 2] =
      some ⟨[2, 1, 1, 1, 2], [1, 2, 3, 4]⟩ := by decide
  simp only [read_from_file, e1, e2, e3, e4, List.length_cons, List.length_nil]
  decide

/-- C3 (code_bug): adding two compatible spin-polarised `Procar`s sets
`number_of_k_points = K1 + K2 = 2`, but concatenates `data` along axis 1 —
the band axis of the public `(K, B, spin, ions+1, projections)` layout the
parser produced — so the result's shape is `(1, 2, 2, 1, 1)` instead of the
claimed k-axis concatenation `(2, 1, 2, 1, 1)`: the code contradicts the
parsed layout (and the resulting object's own `number_of_k_points`). -/
theorem procar_add_spin_polarised_bug :
    read_from_file 1 1 0 [(0, 0, 0), (0, 0, 0)] [(1, 2), (1, 3)] [(1, 1), (1, 1)]
      ⟨[2, 2], [1, 2, 3, 4]⟩ Policy.warn = Except.ok c3proc ∧
    (c3proc.add c3proc).map (fun q => (q.number_of_k_points, q.data.shape)) =
      Except.ok (2, [1, 2, 2, 1, 1]) :=
  ⟨c3parse_eval, by decide⟩

/-- C10 (confirmed): a successful `__add__` returns an object whose
`k_points` table is (the deep copy of) the left operand's — reflecting only
the left operand's k-point count — even though `number_of_k_points` is the
sum of both operands' counts. -/
theorem procar_add_keeps_left_k_points (a b q : Procar)
    (h : a.add b = Except.ok q) :
    q.k_points = a.k_points ∧
    q.number_of_k_points = a.number_of_k_points + b.number_of_k_points := by
  unfold Procar.add at h
  by_cases h1 : a.spin_channels ≠ b.spin_channels
  · rw [if_pos h1] at h
    exact Except.noConfusion h
  rw [if_neg h1] at h
  by_cases h2 : a.number_of_ions ≠ b.number_of_ions
  · rw [if_pos h2] at h
    exact Except.noConfusion h
  rw [if_neg h2] at h
  by_cases h3 : a.number_of_bands ≠ b.number_of_bands
  · rw [if_pos h3] at h
    exact Except.noConfusion h
  rw [if_neg h3] at h
  by_cases h4 : a.number_of_projections ≠ b.number_of_projections
  · rw [if_pos h4] at h
    exact Except.noConfusion h
  rw [if_neg h4] at h
  by_cases h5 : a.k_point_blocks ≠ b.k_point_blocks
  · rw [if_pos h5] at h
    exact Except.noConfusion h
  rw [if_neg h5] at h
  by_cases h6 : a.calculation ≠ b.calculation
  · rw [if_pos h6] at h
    exact Except.noConfusion h
  rw [if_neg h6] at h
  rcases hc : (if a.calculation.spin_polarised then a.data.concatenate b.data 1
      else a.data.concatenate b.data 0) with _ | d
  · rw [hc] at h
    exact Except.noConfusion h
  · rw [hc] at h
    cases h
    exact ⟨rfl, rfl⟩

/-- Left operand for the C10 witness. -/
def c10a : Procar :=
  { spin_channels := 1
    number_of_k_points := 1
    number_of_ions := 0
    number_of_bands := 1
    data := ⟨[1, 1, 1, 1, 1], [7]⟩
    bands := [(1, 3)]
    occupancy := [(1, 1)]
    number_of_projections := 2
    k_point_blocks := 1
    calculation := ⟨true, false, false⟩
    k_points := [(0, 0, 0)] }

/-- Right operand for the C10 witness: same structure, different k-point
coordinates and data. -/
def c10b : Procar :=
  { spin_channels := 1
    number_of_k_points := 1
    number_of_ions := 0
    number_of_bands := 1
    data := ⟨[1, 1, 1, 1, 1], [9]⟩
    bands := [(1, 4)]
    occupancy := [(1, 1)]
    number_of_projections := 2
    k_point_blocks := 1
    calculation := ⟨true, false, false⟩
    k_points := [(1, 0, 0)] }

/-- The sum object for the C10 witness. -/
def c10q : Procar := (c10a.add c10b).toOption.getD Procar.init

/-- Witness for C10 at the concrete pair `c10a`, `c10b`. -/
theorem procar_add_keeps_left_k_points_witness :
    c10q.k_points = c10a.k_points ∧
    c10q.number_of_k_points = c10a.number_of_k_points + c10b.number_of_k_points :=
  procar_add_keeps_left_k_points c10a c10b c10q (by decide)

/-- Evaluation of `sumPowMul` on exactly quadratic data: it is the matching
linear combination of power sums. -/
theorem sumPowMul_quadratic {α : Type} [Field α] (xs : List α) (a b c : α) (k : Nat) :
    sumPowMul xs (xs.map fun x => a * x ^ 2 + b * x + c) k =
      a * sumPow xs (k + 2) + b * sumPow xs (k + 1) + c * sumPow xs k := by
  induction xs with
  | nil => simp [sumPowMul, sumPow]
  | cons x t ih =>
      simp only [sumPowMul, sumPow, List.map_cons, List.zip_cons_cons,
        List.sum_cons] at ih ⊢
      rw [ih]
      ring

/-- Sanity check of the `np.polyfit` model: on exactly quadratic data with an
invertible moment matrix, the fitted leading coefficient is the quadratic's
own leading coefficient. -/
theorem polyfitQuadLead_exact_quadratic {α : Type} [Field α] (xs : List α) (a b c : α)
    (hd : quadMomentDet xs ≠ 0) :
    polyfitQuadLead xs (xs.map fun x => a * x ^ 2 + b * x + c) = a := by
  unfold polyfitQuadLead
  rw [sumPowMul_quadratic xs a b c 2, sumPowMul_quadratic xs a b c 1,
    sumPowMul_quadratic xs a b c 0]
  rw [div_eq_iff hd]
  unfold quadMomentDet
  norm_num
  ring

/-- C9 (confirmed): on exactly two Cartesian k-points the effective-mass
function returns `|Δk|² / (2 · ΔE · ev_to_hartree)`, with `Δk = k1 - k0` the
Cartesian displacement (its squared norm being `dot3 Δk Δk`) and
`ΔE = e1 - e0` the eigenvalue difference. -/
theorem two_point_effective_mass_formula (k0 k1 : ℝ × ℝ × ℝ) (e0 e1 : ℝ) :
    two_point_effective_mass [k0, k1] [e0, e1] =
      Except.ok (dot3 (sub3 k1 k0) (sub3 k1 k0) / (2 * (e1 - e0) * ev_to_hartree)) := by
  have hnn : 0 ≤ dot3 (sub3 k1 k0) (sub3 k1 k0) := by
    unfold dot3
    have q1 := mul_self_nonneg (sub3 k1 k0).1
    have q2 := mul_self_nonneg (sub3 k1 k0).2.1
    have q3 := mul_self_nonneg (sub3 k1 k0).2.2
    linarith
  unfold two_point_effective_mass
  rw [if_pos ⟨rfl, rfl⟩]
  have hg1 : ([k0, k1].getD 1 origin3) = k1 := rfl
  have hg0 : ([k0, k1].getD 0 origin3) = k0 := rfl
  have he1 : ([e0, e1].getD 1 0) = e1 := rfl
  have he0 : ([e0, e1].getD 0 0) = e0 := rfl
  rw [hg1, hg0, he1, he0]
  congr 1
  rw [Real.mul_self_sqrt hnn]
  ring

/-- C4 (confirmed): with three or more k-points, the least-squares
effective-mass estimator raises the collinearity error — performing no fit —
as soon as one triangle formed by the first two Cartesian points and a later
point has area above the default tolerance `1e-7`; when every such area is
within tolerance it returns
`1 / (2 · leading quadratic coefficient of the fit of eigenvalue against
distance-from-first-point · ev_to_hartree)`. -/
theorem least_squares_effective_mass_spec (ks : List (ℝ × ℝ × ℝ)) (es : List ℝ)
    (_hlen : 3 ≤ ks.length) :
    ((∃ c ∈ ks.drop 2, area_of_a_triangle_in_cartesian_space (ks.getD 0 origin3)
        (ks.getD 1 origin3) c > 1e-7) →
      least_squares_effective_mass ks es = Except.error PError.notCollinear) ∧
    ((∀ c ∈ ks.drop 2, area_of_a_triangle_in_cartesian_space (ks.getD 0 origin3)
        (ks.getD 1 origin3) c ≤ 1e-7) →
      least_squares_effective_mass ks es = Except.ok (1 /
        (2 * polyfitQuadLead (ks.map fun k =>
            Real.sqrt (dot3 (sub3 k (ks.getD 0 origin3)) (sub3 k (ks.getD 0 origin3)))) es *
          ev_to_hartree))) := by
  constructor
  · intro hex
    have hns : ¬ points_are_in_a_straight_line ks (1e-7) := by
      intro hall
      obtain ⟨c, hc, harea⟩ := hex
      exact hall c hc harea
    unfold least_squares_effective_mass
    rw [if_neg hns]
  · intro hall
    have hs : points_are_in_a_straight_line ks (1e-7) := by
      intro c hc
      exact not_lt.mpr (hall c hc)
    unfold least_squares_effective_mass
    rw [if_pos hs]
    congr 1
    ring

/-- Three collinear Cartesian points (all on the x-axis) for the C4
witness. -/
def c4pts : List (ℝ × ℝ × ℝ) := [(0, 0, 0), (1, 0, 0), (2, 0, 0)]

/-- Three non-collinear Cartesian points (triangle of area 1/2) for the C4
witness. -/
def c4bad : List (ℝ × ℝ × ℝ) := [(0, 0, 0), (1, 0, 0), (0, 1, 0)]

/-- Witness for C4: the collinear triple is fitted and returns the
least-squares expression, while the non-collinear triple raises the
collinearity error. -/
theorem least_squares_effective_mass_spec_witness :
    least_squares_effective_mass c4pts [0, 1, 4] =
      Except.ok (1 / (2 * polyfitQuadLead (c4pts.map fun k =>
          Real.sqrt (dot3 (sub3 k (c4pts.getD 0 origin3)) (sub3 k (c4pts.getD 0 origin3))))
          [0, 1, 4] * ev_to_hartree)) ∧
    least_squares_effective_mass c4bad [0, 1, 4] = Except.error PError.notCollinear := by
  constructor
  · refine (least_squares_effective_mass_spec c4pts [0, 1, 4] (by simp [c4pts])).2 ?_
    intro c hc
    have hcc : c = ((2 : ℝ), (0 : ℝ), (0 : ℝ)) := by
      simpa [c4pts] using hc
    subst hcc
    have hg0 : c4pts.getD 0 origin3 = ((0 : ℝ), (0 : ℝ), (0 : ℝ)) := rfl
    have hg1 : c4pts.getD 1 origin3 = ((1 : ℝ), (0 : ℝ), (0 : ℝ)) := rfl
    rw [hg0, hg1]
    unfold area_of_a_triangle_in_cartesian_space cross3 sub3 dot3
    norm_num [Real.sqrt_zero]
  · refine (least_squares_effective_mass_spec c4bad [0, 1, 4] (by simp [c4bad])).1 ?_
    refine ⟨((0 : ℝ), (1 : ℝ), (0 : ℝ)), by simp [c4bad], ?_⟩
    have hg0 : c4bad.getD 0 origin3 = ((0 : ℝ), (0 : ℝ), (0 : ℝ)) := rfl
    have hg1 : c4bad.getD 1 origin3 = ((1 : ℝ), (0 : ℝ), (0 : ℝ)) := rfl
    rw [hg0, hg1]
    unfold area_of_a_triangle_in_cartesian_space cross3 sub3 dot3
    norm_num [Real.sqrt_one]
